import Mathlib

/-!
Shallow embedding of the pyprland `hdrop` plugin (scratchpad window
controller, `src/pyprland/plugins/hdrop.py`) and of the companion
`fcitx5_switcher` plugin (`src/pyprland/plugins/fcitx5_switcher.py`).

The backend is modelled as an environment: `clientsAt i` is the client list
the backend returns to the i-th `get_clients` query (so the window set may
change between queries), and `activeWorkspaceId` is the answer to the
`activeworkspace` query.  The plugin code is embedded in explicit
state-passing style over `St`, which records the ordered trace of backend
commands issued so far, the number of client-list queries made so far, and
two ghost counters (entries into `_handle_window`, and `exec` launch
commands) used to state the resource bounds of the launch/retry protocol.
-/

/-- A window client as reported by the compositor backend: address handle,
window class, title, containing workspace name, and floating flag. -/
structure Client where
  address : String
  cls : String
  title : String
  workspaceName : String
  floating : Bool
deriving DecidableEq, Repr

/-- The backend environment: `clientsAt i` is the snapshot returned to the
i-th client-list query, `activeWorkspaceId` the currently focused workspace. -/
structure Env where
  clientsAt : Nat → List Client
  activeWorkspaceId : Int

/-- A backend whose client list never changes between queries. -/
def staticEnv (clients : List Client) (ws : Int) : Env :=
  ⟨fun _ => clients, ws⟩

/-- Verification state threaded through the embedded plugin code. -/
structure St where
  cmds : List String := []
  queries : Nat := 0
  passes : Nat := 0
  execs : Nat := 0
deriving DecidableEq, Repr

/-- The state at the start of a top-level call: nothing issued yet. -/
def St.init : St := {}

/-- `self.backend.execute cmd`: append one command to the trace. -/
def emit (s : St) (cmd : String) : St :=
  { s with cmds := s.cmds ++ [cmd] }

/-- The `exec` launch emission (`hdrop.py` line 231), also bumping the ghost
counter of issued `exec` commands. -/
def emitExec (s : St) (cmd : String) : St :=
  { s with cmds := s.cmds ++ [cmd], execs := s.execs + 1 }

/-- `await self.get_clients()`: the environment answers with the snapshot for
the current query index, and the query is counted. -/
def get_clients (env : Env) (s : St) : List Client × St :=
  (env.clientsAt s.queries, { s with queries := s.queries + 1 })

/-- Pure form of the `any` on `hdrop.py` line 198. -/
def windowExists (clients : List Client) (class_name : String) : Bool :=
  clients.any (fun c => c.cls == class_name)

/-- Pure form of the `any` on `hdrop.py` line 203. -/
def windowInHdrop (clients : List Client) (class_name : String) : Bool :=
  clients.any (fun c => c.cls == class_name && c.workspaceName == "special:hdrop")

/-- `_is_window_exists`: one fresh client-list query, then the class test. -/
def _is_window_exists (env : Env) (class_name : String) (s : St) : Bool × St :=
  let r := get_clients env s
  (windowExists r.1 class_name, r.2)

/-- `_is_window_in_hdrop`: one fresh client-list query, then the class and
workspace test against the sentinel workspace name. -/
def _is_window_in_hdrop (env : Env) (class_name : String) (s : St) : Bool × St :=
  let r := get_clients env s
  (windowInHdrop r.1 class_name, r.2)

/-- `_move_window_to_hdrop`. -/
def _move_window_to_hdrop (class_name : String) (s : St) : St :=
  emit s ("movetoworkspacesilent special:hdrop,class:" ++ class_name)

/-- `_move_window_to_active_workspace`: queries the active workspace id and
moves the window there by class. -/
def _move_window_to_active_workspace (env : Env) (class_name : String) (s : St) : St :=
  emit s ("movetoworkspace " ++ toString env.activeWorkspaceId ++ ",class:" ++ class_name)

/-- `HdropOptions` dataclass from `hdrop.py`. -/
structure HdropOptions where
  command : Option String
  focus : Bool
  floating : Bool
  height : Option Int
  width : Option Int
  center : Bool
  skip : Bool := false
  launch_on_missing : Bool := false
deriving Repr

/-- The loop body of `_configure_floating_window` (lines 276-278): toggle
floating per address, only for clients not already floating. -/
def togglePerClient (s : St) (c : Client) : St :=
  if !c.floating then emit s ("togglefloating address:" ++ c.address) else s

/-- `_configure_floating_window`: one fresh client-list query; per-address
floating toggles for matching clients outside the scratchpad (class-wide
fallback when there are none); then optional resize and optional center. -/
def _configure_floating_window (env : Env) (class_name : String)
    (height width : Option Int) (center_flag : Bool) (s : St) : St :=
  let r := get_clients env s
  let target_clients := r.1.filter
    (fun c => c.cls == class_name && c.workspaceName != "special:hdrop")
  let s1 :=
    if !target_clients.isEmpty then target_clients.foldl togglePerClient r.2
    else emit r.2 ("togglefloating class:" ++ class_name)
  let s2 :=
    match height, width with
    | some h, some w =>
      emit s1 ("resizewindowpixel exact " ++ toString w ++ " " ++ toString h
        ++ ",class:" ++ class_name)
    | _, _ => s1
  if center_flag then emit s2 ("centerwindow class:" ++ class_name) else s2

/-- Short-circuit evaluation of the launch guard (`hdrop.py` line 230):
`not skip_flag and command is not None and not await self._is_window_exists(..)
and launch_on_missing`.  The client-list query is made exactly when the first
two conjuncts hold, as in the source's short-circuit order. -/
def launchCond (env : Env) (class_name : String) (opts : HdropOptions) (s : St) :
    Bool × St :=
  if opts.skip then (false, s)
  else
    match opts.command with
    | none => (false, s)
    | some _ =>
      let r := _is_window_exists env class_name s
      (!r.1 && opts.launch_on_missing, r.2)

/-- The second half of `_handle_window` (lines 247-259, "Window exists: act
according to flags"): re-query existence, then either restore from the
scratchpad (plus optional geometry normalisation), focus, or hide. -/
def handleExisting (env : Env) (class_name : String) (opts : HdropOptions) (s : St) : St :=
  let r := _is_window_exists env class_name s
  if r.1 then
    let r2 := _is_window_in_hdrop env class_name r.2
    if r2.1 then
      let s1 := _move_window_to_active_workspace env class_name r2.2
      if opts.floating then
        _configure_floating_window env class_name opts.height opts.width opts.center s1
      else s1
    else if opts.focus then
      emit r2.2 ("focuswindow class:" ++ class_name)
    else
      _move_window_to_hdrop class_name r2.2
  else r.2

/-- `_handle_window`: the full decision pass.  If the launch guard holds, emit
`exec <command>`, sleep (no observable effect in the model), and recurse with
`skip := true`; otherwise fall through to the exists-branch logic.  The ghost
`passes` counter is bumped on entry. -/
def _handle_window (env : Env) (class_name : String) (opts : HdropOptions) (s0 : St) : St :=
  let s := { s0 with passes := s0.passes + 1 }
  let c := launchCond env class_name opts s
  if h : c.1 = true then
    _handle_window env class_name { opts with skip := true }
      (emitExec c.2 ("exec " ++ opts.command.getD ""))
  else
    handleExisting env class_name opts c.2
termination_by (if opts.skip then 0 else 1)
decreasing_by
  have h2 : (launchCond env class_name opts { s0 with passes := s0.passes + 1 }).1 = true := h
  have hs : opts.skip = false := by
    by_contra hc
    rw [Bool.not_eq_false] at hc
    simp [launchCond, hc] at h2
  simp [hs]

/-- Per-application configuration dictionary (`hdrop.apps.<name>`): every key
optional, mirroring the dynamic Python dict. -/
structure AppConf where
  cls : Option String := none
  command : Option String := none
  focus : Option Bool := none
  floating : Option Bool := none
  height : Option Int := none
  width : Option Int := none
  center : Option Bool := none
  launch_on_missing : Option Bool := none
deriving Repr

/-- Python truthiness of the per-app config dict: truthy iff some key is set. -/
def AppConf.isTruthy (c : AppConf) : Bool :=
  c.cls.isSome || c.command.isSome || c.focus.isSome || c.floating.isSome ||
  c.height.isSome || c.width.isSome || c.center.isSome || c.launch_on_missing.isSome

/-- `_get_app_config`: `self.apps.get(app_name, {})`. -/
def _get_app_config (apps : List (String × AppConf)) (app_name : String) : AppConf :=
  (apps.lookup app_name).getD {}

/-- Python `str.strip()`: drop leading and trailing whitespace. -/
def pyStrip (s : String) : String :=
  String.mk (((s.data.dropWhile Char.isWhitespace).reverse.dropWhile
    Char.isWhitespace).reverse)

/-- One step of the whitespace tokenizer below. -/
def wordsAux (c : Char) (acc : List (List Char)) : List (List Char) :=
  if c.isWhitespace then [] :: acc
  else
    match acc with
    | [] => [[c]]
    | w :: ws => (c :: w) :: ws

/-- Python `args.split(None, ..)`: whitespace split with empty tokens dropped
(only the head token is ever used by the entry points). -/
def pySplitWs (args : String) : List String :=
  ((args.data.foldr wordsAux []).filter (fun w => !w.isEmpty)).map
    (fun w => String.mk w)

/-- Options built by `run_app`/`run_toggle` from a per-app config dict. -/
def optsOfConf (app_conf : AppConf) : HdropOptions :=
  { command := app_conf.command
    focus := app_conf.focus.getD false
    floating := app_conf.floating.getD false
    height := app_conf.height
    width := app_conf.width
    center := app_conf.center.getD false
    launch_on_missing := app_conf.launch_on_missing.getD false }

/-- `run_app`: resolve the app's config (error when absent/falsy), derive the
class name and options, and run the decision logic. -/
def run_app (env : Env) (apps : List (String × AppConf)) (app_name : String) (s : St) :
    Option String × St :=
  let app_conf := _get_app_config apps app_name
  if !app_conf.isTruthy then
    (some ("Error: app '" ++ app_name ++ "' not configured"), s)
  else
    (none, _handle_window env (app_conf.cls.getD app_name) (optsOfConf app_conf) s)

/-- `run_hdrop`: parse the first token as the app name (error when empty),
then `run_app`. -/
def run_hdrop (env : Env) (apps : List (String × AppConf)) (args : String) (s : St) :
    Option String × St :=
  let app_name := (pySplitWs args).headD ""
  if app_name == "" then
    (some "Error: app name required (defined under hdrop.apps)", s)
  else run_app env apps app_name s

/-- `run_toggle`: first token is the class name (error when none); options come
from the app config under that class name. -/
def run_toggle (env : Env) (apps : List (String × AppConf)) (args : String) (s : St) :
    Option String × St :=
  match pySplitWs args with
  | [] => (some "Error: CLASS name required", s)
  | class_name :: _ =>
    (none, _handle_window env class_name (optsOfConf (_get_app_config apps class_name)) s)

/-- `run_show`: like `run_toggle` but with `focus` forced to `true`. -/
def run_show (env : Env) (apps : List (String × AppConf)) (args : String) (s : St) :
    Option String × St :=
  match pySplitWs args with
  | [] => (some "Error: CLASS name required", s)
  | class_name :: _ =>
    (none, _handle_window env class_name
      { optsOfConf (_get_app_config apps class_name) with focus := true } s)

/-- `run_focus`: stripped argument is the class name (error when empty); move
from the scratchpad if there, else focus by class. -/
def run_focus (env : Env) (args : String) (s : St) : Option String × St :=
  let class_name := pyStrip args
  if class_name == "" then (some "Error: CLASS name required", s)
  else
    let r := _is_window_in_hdrop env class_name s
    if r.1 then (none, _move_window_to_active_workspace env class_name r.2)
    else (none, emit r.2 ("focuswindow class:" ++ class_name))

/-- `run_hide`: stripped argument is the class name (error when empty); hide to
the scratchpad only when a window of that class exists. -/
def run_hide (env : Env) (args : String) (s : St) : Option String × St :=
  let class_name := pyStrip args
  if class_name == "" then (some "Error: CLASS name required", s)
  else
    let r := _is_window_exists env class_name s
    if r.1 then (none, _move_window_to_hdrop class_name r.2)
    else (none, r.2)

/-- Configuration of the fcitx5 switcher plugin (schema defaults: empty lists). -/
structure SwitcherConfig where
  active_classes : List String := []
  active_titles : List String := []
  inactive_classes : List String := []
  inactive_titles : List String := []

/-- `matches_any` from `fcitx5_switcher.py`, with `re.search` abstracted as an
oracle `reSearch pattern value` that returns `.error ()` where the Python
raises `re.error`; on such a pattern the code falls back to string equality. -/
def matches_any (reSearch : String → String → Except Unit Bool)
    (value : String) (patterns : List String) : Bool :=
  match patterns with
  | [] => false
  | p :: rest =>
    match reSearch p value with
    | .ok true => true
    | .ok false => matches_any reSearch value rest
    | .error _ => if value == p then true else matches_any reSearch value rest

/-- Loop body of `event_activewindowv2`: for a client matching the activated
address, emit the enable command when an active pattern matches, then the
disable command when an inactive pattern matches. -/
def fcitxStep (reSearch : String → String → Except Unit Bool) (cfg : SwitcherConfig)
    (addrFull : String) (s : St) (client : Client) : St :=
  if client.address == addrFull then
    let should_enable := matches_any reSearch client.cls cfg.active_classes ||
      matches_any reSearch client.title cfg.active_titles
    let should_disable := matches_any reSearch client.cls cfg.inactive_classes ||
      matches_any reSearch client.title cfg.inactive_titles
    let s1 := if should_enable then emit s "execr fcitx5-remote -o" else s
    if should_disable then emit s1 "execr fcitx5-remote -c" else s1
  else s

/-- `event_activewindowv2`: prefix the address with `0x`, take one client-list
snapshot, and run the matching logic over every client in it. -/
def event_activewindowv2 (reSearch : String → String → Except Unit Bool)
    (cfg : SwitcherConfig) (env : Env) (addr : String) (s : St) : St :=
  let addrFull := "0x" ++ addr
  let r := get_clients env s
  r.1.foldl (fcitxStep reSearch cfg addrFull) r.2

/-- The per-address floating toggles the normalizer's loop emits, in order. -/
def toggleAddrCmds (l : List Client) : List String :=
  l.filterMap (fun c => if !c.floating then some ("togglefloating address:" ++ c.address) else none)

/-- The matching clients outside the scratchpad the normalizer operates on. -/
def targetsOf (clients : List Client) (class_name : String) : List Client :=
  clients.filter (fun c => c.cls == class_name && c.workspaceName != "special:hdrop")

/-- Closed form of the command block `_configure_floating_window` appends to the
trace, as a pure function of the snapshot it reads. -/
def configDelta (clients : List Client) (class_name : String)
    (height width : Option Int) (center_flag : Bool) : List String :=
  (if (targetsOf clients class_name).isEmpty then ["togglefloating class:" ++ class_name]
   else toggleAddrCmds (targetsOf clients class_name))
  ++ (match height, width with
      | some h, some w =>
        ["resizewindowpixel exact " ++ toString w ++ " " ++ toString h
          ++ ",class:" ++ class_name]
      | _, _ => [])
  ++ (if center_flag then ["centerwindow class:" ++ class_name] else [])

lemma foldl_togglePerClient (l : List Client) (s : St) :
    l.foldl togglePerClient s = { s with cmds := s.cmds ++ toggleAddrCmds l } := by
  induction l generalizing s with
  | nil => simp [toggleAddrCmds]
  | cons c l ih =>
    by_cases hc : c.floating
    · simp [togglePerClient, hc, ih, toggleAddrCmds, List.filterMap_cons]
    · simp [togglePerClient, hc, ih, emit, toggleAddrCmds, List.filterMap_cons]

lemma configure_eq (env : Env) (cn : String) (h w : Option Int) (cf : Bool) (s : St) :
    _configure_floating_window env cn h w cf s =
      { s with cmds := s.cmds ++ configDelta (env.clientsAt s.queries) cn h w cf,
               queries := s.queries + 1 } := by
  unfold _configure_floating_window configDelta targetsOf get_clients
  set ts := (env.clientsAt s.queries).filter
    (fun c => c.cls == cn && c.workspaceName != "special:hdrop") with hts
  by_cases hemp : ts.isEmpty
  · rcases h with _ | hh <;> rcases w with _ | ww <;>
      by_cases hcf : cf <;> simp [hemp, hcf, emit]
  · rcases h with _ | hh <;> rcases w with _ | ww <;>
      by_cases hcf : cf <;> simp [hemp, hcf, emit, foldl_togglePerClient]

lemma launchCond_cmds (env : Env) (cn : String) (opts : HdropOptions) (s : St) :
    ((launchCond env cn opts s).2).cmds = s.cmds := by
  unfold launchCond _is_window_exists get_clients
  by_cases hs : opts.skip
  · simp [hs]
  · rcases opts.command with _ | cmd <;> simp [hs]

lemma launchCond_passes (env : Env) (cn : String) (opts : HdropOptions) (s : St) :
    ((launchCond env cn opts s).2).passes = s.passes := by
  unfold launchCond _is_window_exists get_clients
  by_cases hs : opts.skip
  · simp [hs]
  · rcases opts.command with _ | cmd <;> simp [hs]

lemma launchCond_execs (env : Env) (cn : String) (opts : HdropOptions) (s : St) :
    ((launchCond env cn opts s).2).execs = s.execs := by
  unfold launchCond _is_window_exists get_clients
  by_cases hs : opts.skip
  · simp [hs]
  · rcases opts.command with _ | cmd <;> simp [hs]

lemma launchCond_of_skip (env : Env) (cn : String) (opts : HdropOptions) (s : St)
    (h : opts.skip = true) : launchCond env cn opts s = (false, s) := by
  simp [launchCond, h]

lemma launchCond_of_no_command (env : Env) (cn : String) (opts : HdropOptions) (s : St)
    (h : opts.command = none) : launchCond env cn opts s = (false, s) := by
  unfold launchCond
  by_cases hs : opts.skip <;> simp [hs, h]

lemma launchCond_fst_static (clients : List Client) (ws : Int) (cn : String)
    (opts : HdropOptions) (s : St) (hex : windowExists clients cn = true) :
    (launchCond (staticEnv clients ws) cn opts s).1 = false := by
  unfold launchCond _is_window_exists get_clients staticEnv
  by_cases hs : opts.skip
  · simp [hs]
  · rcases opts.command with _ | cmd <;> simp [hs, hex]

lemma handleExisting_passes (env : Env) (cn : String) (opts : HdropOptions) (s : St) :
    (handleExisting env cn opts s).passes = s.passes := by
  unfold handleExisting _is_window_exists _is_window_in_hdrop get_clients
    _move_window_to_active_workspace _move_window_to_hdrop
  by_cases h1 : windowExists (env.clientsAt s.queries) cn <;>
    by_cases h2 : windowInHdrop (env.clientsAt (s.queries + 1)) cn <;>
      by_cases h3 : opts.floating <;> by_cases h4 : opts.focus <;>
        simp [h1, h2, h3, h4, configure_eq, emit]

lemma handleExisting_execs (env : Env) (cn : String) (opts : HdropOptions) (s : St) :
    (handleExisting env cn opts s).execs = s.execs := by
  unfold handleExisting _is_window_exists _is_window_in_hdrop get_clients
    _move_window_to_active_workspace _move_window_to_hdrop
  by_cases h1 : windowExists (env.clientsAt s.queries) cn <;>
    by_cases h2 : windowInHdrop (env.clientsAt (s.queries + 1)) cn <;>
      by_cases h3 : opts.floating <;> by_cases h4 : opts.focus <;>
        simp [h1, h2, h3, h4, configure_eq, emit]

lemma handleExisting_static_inHdrop (clients : List Client) (ws : Int) (cn : String)
    (opts : HdropOptions) (s : St)
    (hex : windowExists clients cn = true) (hin : windowInHdrop clients cn = true) :
    handleExisting (staticEnv clients ws) cn opts s =
      { s with
        cmds := s.cmds ++ ("movetoworkspace " ++ toString ws ++ ",class:" ++ cn) ::
          (if opts.floating then configDelta clients cn opts.height opts.width opts.center
           else []),
        queries := s.queries + (if opts.floating then 3 else 2) } := by
  unfold handleExisting _is_window_exists _is_window_in_hdrop get_clients
    _move_window_to_active_workspace staticEnv
  by_cases h3 : opts.floating <;>
    simp [hex, hin, h3, emit, configure_eq, staticEnv]

lemma handleExisting_static_notInHdrop (clients : List Client) (ws : Int) (cn : String)
    (opts : HdropOptions) (s : St)
    (hex : windowExists clients cn = true) (hnin : windowInHdrop clients cn = false) :
    handleExisting (staticEnv clients ws) cn opts s =
      { s with
        cmds := s.cmds ++ [if opts.focus then "focuswindow class:" ++ cn
                           else "movetoworkspacesilent special:hdrop,class:" ++ cn],
        queries := s.queries + 2 } := by
  unfold handleExisting _is_window_exists _is_window_in_hdrop get_clients
    _move_window_to_hdrop staticEnv
  by_cases h4 : opts.focus <;> simp [hex, hnin, h4, emit]

lemma handleExisting_static_missing (clients : List Client) (ws : Int) (cn : String)
    (opts : HdropOptions) (s : St) (hex : windowExists clients cn = false) :
    handleExisting (staticEnv clients ws) cn opts s = { s with queries := s.queries + 1 } := by
  unfold handleExisting _is_window_exists get_clients staticEnv
  simp [hex]

lemma handle_window_no_launch (env : Env) (cn : String) (opts : HdropOptions) (s : St)
    (h : (launchCond env cn opts { s with passes := s.passes + 1 }).1 = false) :
    _handle_window env cn opts s =
      handleExisting env cn opts
        (launchCond env cn opts { s with passes := s.passes + 1 }).2 := by
  unfold _handle_window
  simp [h]

lemma handle_window_static_exists (clients : List Client) (ws : Int) (cn : String)
    (opts : HdropOptions) (s : St) (hex : windowExists clients cn = true) :
    _handle_window (staticEnv clients ws) cn opts s =
      handleExisting (staticEnv clients ws) cn opts
        (launchCond (staticEnv clients ws) cn opts { s with passes := s.passes + 1 }).2 :=
  handle_window_no_launch _ _ _ _ (launchCond_fst_static _ _ _ _ _ hex)

lemma append_idx_ne (p q x y : String) (i : Nat) (hp : i < p.data.length)
    (hq : i < q.data.length) (hne : p.data[i]? ≠ q.data[i]?) : p ++ x ≠ q ++ y := by
  intro he
  have hd := congrArg String.data he
  rw [String.data_append, String.data_append] at hd
  have h0 := congrArg (fun l => l[i]?) hd
  simp only at h0
  rw [List.getElem?_append_left hp, List.getElem?_append_left hq] at h0
  exact hne h0

lemma tclass_ne_taddr (x y : String) :
    ("togglefloating class:" ++ x) ≠ ("togglefloating address:" ++ y) :=
  append_idx_ne _ _ _ _ 15 (by decide) (by decide) (by decide)

lemma resize_ne_taddr (tw th cn a : String) :
    ("resizewindowpixel exact " ++ tw ++ " " ++ th ++ ",class:" ++ cn) ≠
      ("togglefloating address:" ++ a) := by
  rw [String.append_assoc, String.append_assoc, String.append_assoc, String.append_assoc]
  exact append_idx_ne _ _ _ _ 0 (by decide) (by decide) (by decide)

lemma center_ne_taddr (cn a : String) :
    ("centerwindow class:" ++ cn) ≠ ("togglefloating address:" ++ a) :=
  append_idx_ne _ _ _ _ 0 (by decide) (by decide) (by decide)

lemma tclass_ne_resize (cn tw th cn' : String) :
    ("togglefloating class:" ++ cn) ≠
      ("resizewindowpixel exact " ++ tw ++ " " ++ th ++ ",class:" ++ cn') := by
  rw [String.append_assoc, String.append_assoc, String.append_assoc, String.append_assoc]
  exact append_idx_ne _ _ _ _ 0 (by decide) (by decide) (by decide)

lemma tclass_ne_center (cn cn' : String) :
    ("togglefloating class:" ++ cn) ≠ ("centerwindow class:" ++ cn') :=
  append_idx_ne _ _ _ _ 0 (by decide) (by decide) (by decide)

lemma windowInHdrop_eq_false_of_not_exists (clients : List Client) (cn : String)
    (hex : windowExists clients cn = false) : windowInHdrop clients cn = false := by
  unfold windowExists at hex
  unfold windowInHdrop
  simp only [List.any_eq_false] at hex ⊢
  intro c hc
  have := hex c hc
  simp_all

lemma pySplitWs_head_ne_empty (args cn : String) (rest : List String)
    (h : pySplitWs args = cn :: rest) : (cn == "") = false := by
  have hmem : cn ∈ pySplitWs args := by rw [h]; exact List.mem_cons_self _ _
  unfold pySplitWs at hmem
  rcases List.mem_map.mp hmem with ⟨w, hw, hcn⟩
  have hne := (List.mem_filter.mp hw).2
  rw [beq_eq_false_iff_ne]
  intro hcon
  rw [hcon] at hcn
  have hwnil : w = [] := congrArg String.data hcn
  rw [hwnil] at hne
  simp at hne

lemma handle_window_static_missing_no_launch (clients : List Client) (ws : Int)
    (cn : String) (opts : HdropOptions) (s : St)
    (hex : windowExists clients cn = false)
    (hnl : opts.command = none ∨ opts.launch_on_missing = false) :
    (_handle_window (staticEnv clients ws) cn opts s).cmds = s.cmds := by
  have hc1 : (launchCond (staticEnv clients ws) cn opts
      { s with passes := s.passes + 1 }).1 = false := by
    by_cases hs : opts.skip
    · rw [launchCond_of_skip _ _ _ _ hs]
    · rcases hcmd : opts.command with _ | cmd
      · rw [launchCond_of_no_command _ _ _ _ hcmd]
      · rcases hnl with hn | hn
        · rw [hn] at hcmd; exact absurd hcmd (by simp)
        · unfold launchCond _is_window_exists get_clients staticEnv
          simp [hs, hcmd, hex, hn]
  rw [handle_window_no_launch _ _ _ _ hc1,
      handleExisting_static_missing _ _ _ _ _ hex]
  simp [launchCond_cmds]

lemma foldl_fcitxStep_filter (reS : String → String → Except Unit Bool)
    (cfg : SwitcherConfig) (A : String) (l : List Client) (s : St) :
    l.foldl (fcitxStep reS cfg A) s =
      (l.filter (fun c => c.address == A)).foldl (fcitxStep reS cfg A) s := by
  induction l generalizing s with
  | nil => rfl
  | cons c l ih =>
    by_cases hc : (c.address == A) = true
    · simp only [List.foldl_cons, List.filter_cons, hc, if_pos trivial]
      exact ih _
    · simp only [List.foldl_cons, List.filter_cons, hc]
      rw [show fcitxStep reS cfg A s c = s by simp [fcitxStep, hc]]
      simpa using ih s

/-- C1: a top-level decision call (`skip = false`) runs the decision logic at
most twice (original pass plus the one retry invoked with `skip = true`) and
issues at most one `exec` launch command, for every backend environment —
in particular also when the launched process never produces a window of the
class (the recursion is total by construction). -/
theorem hdrop_launch_bounded (env : Env) (cn : String) (opts : HdropOptions) (s : St)
    (hskip : opts.skip = false) :
    (_handle_window env cn opts s).passes ≤ s.passes + 2 ∧
    (_handle_window env cn opts s).execs ≤ s.execs + 1 := by
  by_cases h : (launchCond env cn opts { s with passes := s.passes + 1 }).1 = true
  · unfold _handle_window
    simp only [h, dite_true]
    rw [handle_window_no_launch _ _ _ _ (by
      rw [launchCond_of_skip _ _ _ _ rfl])]
    rw [launchCond_of_skip _ _ _ _ rfl]
    constructor
    · rw [handleExisting_passes]
      simp [emitExec, launchCond_passes]
    · rw [handleExisting_execs]
      simp [emitExec, launchCond_execs]
  · rw [handle_window_no_launch _ _ _ _ (by simpa using h)]
    constructor
    · rw [handleExisting_passes]
      have h1 := launchCond_passes env cn opts ({ s with passes := s.passes + 1 })
      simp only [] at h1
      omega
    · rw [handleExisting_execs]
      have h1 := launchCond_execs env cn opts ({ s with passes := s.passes + 1 })
      simp only [] at h1
      omega

/-- Witness for `hdrop_launch_bounded`: scenario A (app `kitty` configured with
`command = kitty`, `launch_on_missing = true`, no matching client). -/
theorem hdrop_launch_bounded_witness :
    (_handle_window (staticEnv [] 1) "kitty"
        ⟨some "kitty", true, false, none, none, false, false, true⟩ St.init).passes ≤
      St.init.passes + 2 ∧
    (_handle_window (staticEnv [] 1) "kitty"
        ⟨some "kitty", true, false, none, none, false, false, true⟩ St.init).execs ≤
      St.init.execs + 1 :=
  hdrop_launch_bounded (staticEnv [] 1) "kitty"
    ⟨some "kitty", true, false, none, none, false, false, true⟩ St.init rfl

/-- C2 (amended): in a decision pass over a static snapshot in which the window
exists and is in the scratchpad workspace, the controller first emits the move
to the active workspace and, exactly when `floating` is requested, then the
geometry-normalizer block; in scenario C the class-wide floating toggle of
that block is emitted unconditionally (the per-window floating guard applies
only to clients outside the scratchpad in the normalizer's snapshot). -/
theorem hdrop_restore_from_scratchpad (clients : List Client) (ws : Int) (cn : String)
    (opts : HdropOptions) (s : St)
    (hex : windowExists clients cn = true) (hin : windowInHdrop clients cn = true) :
    (_handle_window (staticEnv clients ws) cn opts s).cmds =
      s.cmds ++ ("movetoworkspace " ++ toString ws ++ ",class:" ++ cn) ::
        (if opts.floating then configDelta clients cn opts.height opts.width opts.center
         else []) := by
  rw [handle_window_static_exists clients ws cn opts s hex,
      handleExisting_static_inHdrop clients ws cn opts _ hex hin]
  simp [launchCond_cmds]

/-- Witness for `hdrop_restore_from_scratchpad`: scenario C (window `foo` in
`special:hdrop`, not floating, options `floating, height 400, width 600,
center`, active workspace 3) yields the four expected commands in order. -/
theorem hdrop_restore_from_scratchpad_witness :
    (_handle_window (staticEnv [⟨"0xabc", "foo", "t", "special:hdrop", false⟩] 3) "foo"
        ⟨none, false, true, some 400, some 600, true, false, false⟩ St.init).cmds =
      ["movetoworkspace 3,class:foo", "togglefloating class:foo",
       "resizewindowpixel exact 600 400,class:foo", "centerwindow class:foo"] :=
  (hdrop_restore_from_scratchpad [⟨"0xabc", "foo", "t", "special:hdrop", false⟩] 3 "foo"
    ⟨none, false, true, some 400, some 600, true, false, false⟩ St.init
    (by decide) (by decide)).trans (by decide)

/-- C2 counterexample: with the scratchpad window already floating, the code
still emits `togglefloating class:foo` (four commands), while the claim's
"only if not already floating" predicts that the toggle is omitted (three
commands). -/
theorem hdrop_restore_floating_counterexample :
    (_handle_window (staticEnv [⟨"0xabc", "foo", "t", "special:hdrop", true⟩] 3) "foo"
        ⟨none, false, true, some 400, some 600, true, false, false⟩ St.init).cmds =
      ["movetoworkspace 3,class:foo", "togglefloating class:foo",
       "resizewindowpixel exact 600 400,class:foo", "centerwindow class:foo"] ∧
    (_handle_window (staticEnv [⟨"0xabc", "foo", "t", "special:hdrop", true⟩] 3) "foo"
        ⟨none, false, true, some 400, some 600, true, false, false⟩ St.init).cmds ≠
      ["movetoworkspace 3,class:foo",
       "resizewindowpixel exact 600 400,class:foo", "centerwindow class:foo"] := by
  have h : (_handle_window (staticEnv [⟨"0xabc", "foo", "t", "special:hdrop", true⟩] 3)
      "foo" ⟨none, false, true, some 400, some 600, true, false, false⟩ St.init).cmds =
      ["movetoworkspace 3,class:foo", "togglefloating class:foo",
       "resizewindowpixel exact 600 400,class:foo", "centerwindow class:foo"] :=
    (hdrop_restore_from_scratchpad [⟨"0xabc", "foo", "t", "special:hdrop", true⟩]
      3 "foo" ⟨none, false, true, some 400, some 600, true, false, false⟩ St.init
      (by decide) (by decide)).trans (by decide)
  constructor
  · exact h
  · rw [h]
    decide

/-- C3: in a decision pass over a static snapshot in which the window exists
but is not in the scratchpad workspace, exactly one command is emitted: the
focus-by-class command when `focus` is set, the silent move to the scratchpad
otherwise. -/
theorem hdrop_focus_or_hide (clients : List Client) (ws : Int) (cn : String)
    (opts : HdropOptions) (s : St)
    (hex : windowExists clients cn = true) (hnin : windowInHdrop clients cn = false) :
    (_handle_window (staticEnv clients ws) cn opts s).cmds =
      s.cmds ++ [if opts.focus then "focuswindow class:" ++ cn
                 else "movetoworkspacesilent special:hdrop,class:" ++ cn] := by
  rw [handle_window_static_exists clients ws cn opts s hex,
      handleExisting_static_notInHdrop clients ws cn opts _ hex hnin]
  simp [launchCond_cmds]

/-- Witness for `hdrop_focus_or_hide`: scenario B (window `foo` in workspace
`1`, `focus = false`, `floating = false`) emits exactly the silent move. -/
theorem hdrop_focus_or_hide_witness :
    (_handle_window (staticEnv [⟨"0xabc", "foo", "t", "1", false⟩] 1) "foo"
        ⟨none, false, false, none, none, false, false, false⟩ St.init).cmds =
      ["movetoworkspacesilent special:hdrop,class:foo"] :=
  (hdrop_focus_or_hide [⟨"0xabc", "foo", "t", "1", false⟩] 1 "foo"
    ⟨none, false, false, none, none, false, false, false⟩ St.init
    (by decide) (by decide)).trans (by decide)

/-- C4 (amended): for a class absent from the snapshot and no configured
launch path, the `toggle` and `show` entry points issue no backend command;
the `focus` entry point, however, always issues exactly one
`focuswindow class:<C>` command, even for an absent class. -/
theorem hdrop_absent_class_entry_points (clients : List Client) (ws : Int)
    (apps : List (String × AppConf)) (args : String) (cn : String)
    (rest : List String) (s : St) :
    (pySplitWs args = cn :: rest →
      ((optsOfConf (_get_app_config apps cn)).command = none ∨
       (optsOfConf (_get_app_config apps cn)).launch_on_missing = false) →
      windowExists clients cn = false →
      (run_toggle (staticEnv clients ws) apps args s).2.cmds = s.cmds ∧
      (run_show (staticEnv clients ws) apps args s).2.cmds = s.cmds) ∧
    (pyStrip args = cn → (cn == "") = false → windowExists clients cn = false →
      (run_focus (staticEnv clients ws) args s).2.cmds =
        s.cmds ++ ["focuswindow class:" ++ cn]) := by
  constructor
  · intro hparse hnl hex
    constructor
    · unfold run_toggle
      rw [hparse]
      exact handle_window_static_missing_no_launch clients ws cn _ s hex hnl
    · unfold run_show
      rw [hparse]
      refine handle_window_static_missing_no_launch clients ws cn _ s hex ?_
      rcases hnl with hn | hn
      · exact Or.inl hn
      · exact Or.inr hn
  · intro htrim hne hex
    have hnin := windowInHdrop_eq_false_of_not_exists clients cn hex
    unfold run_focus _is_window_in_hdrop get_clients staticEnv
    rw [htrim]
    simp [hne, hnin, emit]

/-- Witness for `hdrop_absent_class_entry_points`: class `foo` absent, app not
configured; `toggle` and `show` emit nothing, `focus` emits the focus command. -/
theorem hdrop_absent_class_entry_points_witness :
    ((run_toggle (staticEnv [] 1) [] "foo" St.init).2.cmds = St.init.cmds ∧
     (run_show (staticEnv [] 1) [] "foo" St.init).2.cmds = St.init.cmds) ∧
    (run_focus (staticEnv [] 1) "foo" St.init).2.cmds =
      St.init.cmds ++ ["focuswindow class:" ++ "foo"] :=
  ⟨(hdrop_absent_class_entry_points [] 1 [] "foo" "foo" [] St.init).1
      (by decide) (Or.inl rfl) (by decide),
   (hdrop_absent_class_entry_points [] 1 [] "foo" "foo" [] St.init).2
      rfl (by decide) (by decide)⟩

/-- C4 counterexample: invoking the `focus` entry point for the absent class
`foo` issues a backend command (`focuswindow class:foo`), contradicting the
claim that no backend command at all is issued. -/
theorem hdrop_focus_absent_counterexample :
    (run_focus (staticEnv [] 1) "foo" St.init).2.cmds ≠ [] ∧
    (run_focus (staticEnv [] 1) "foo" St.init).2.cmds = ["focuswindow class:foo"] := by
  constructor <;> decide

/-- C5 (amended): the derived predicates are each computed from their own
fresh client-list query, not from one shared snapshot: a restore decision pass
(window exists, in scratchpad, `floating` set, no launch command configured)
queries the backend client list exactly three times — once for the exists
check, once for the scratchpad check, and once inside the normalizer. -/
theorem hdrop_queries_per_predicate (clients : List Client) (ws : Int) (cn : String)
    (opts : HdropOptions) (s : St)
    (hcmd : opts.command = none)
    (hex : windowExists clients cn = true) (hin : windowInHdrop clients cn = true)
    (hfl : opts.floating = true) :
    (_handle_window (staticEnv clients ws) cn opts s).queries = s.queries + 3 := by
  rw [handle_window_static_exists clients ws cn opts s hex,
      launchCond_of_no_command _ _ _ _ hcmd,
      handleExisting_static_inHdrop clients ws cn opts _ hex hin]
  simp [hfl]

/-- Witness for `hdrop_queries_per_predicate`: the scenario-C restore pass
makes three client-list queries. -/
theorem hdrop_queries_per_predicate_witness :
    (_handle_window (staticEnv [⟨"0xabc", "foo", "t", "special:hdrop", false⟩] 3) "foo"
        ⟨none, false, true, some 400, some 600, true, false, false⟩ St.init).queries =
      St.init.queries + 3 :=
  hdrop_queries_per_predicate [⟨"0xabc", "foo", "t", "special:hdrop", false⟩] 3 "foo"
    ⟨none, false, true, some 400, some 600, true, false, false⟩ St.init
    rfl (by decide) (by decide) rfl

/-- C5 counterexample: even the plain hide pass (window exists outside the
scratchpad, no launch configured, no normalizer) queries the client list
twice, so the client list is not "queried at most once per pass". -/
theorem hdrop_single_snapshot_counterexample :
    (_handle_window (staticEnv [⟨"0xabc", "foo", "t", "1", false⟩] 1) "foo"
        ⟨none, false, false, none, none, false, false, false⟩ St.init).queries = 2 ∧
    ¬ ((_handle_window (staticEnv [⟨"0xabc", "foo", "t", "1", false⟩] 1) "foo"
        ⟨none, false, false, none, none, false, false, false⟩ St.init).queries ≤ 1) := by
  have h2 : (_handle_window (staticEnv [⟨"0xabc", "foo", "t", "1", false⟩] 1) "foo"
      ⟨none, false, false, none, none, false, false, false⟩ St.init).queries = 2 := by
    rw [handle_window_static_exists _ _ _ _ _ (by decide),
        launchCond_of_no_command _ _ _ _ rfl,
        handleExisting_static_notInHdrop _ _ _ _ _ (by decide) (by decide)]
    decide
  exact ⟨h2, by rw [h2]; decide⟩

lemma configure_cmds_static (clients : List Client) (ws : Int) (cn : String)
    (h w : Option Int) (cf : Bool) :
    (_configure_floating_window (staticEnv clients ws) cn h w cf St.init).cmds =
      configDelta clients cn h w cf := by
  rw [configure_eq]
  simp [staticEnv, St.init]

lemma mem_toggleAddrCmds (l : List Client) (cmd : String) (hmem : cmd ∈ toggleAddrCmds l) :
    ∃ c ∈ l, c.floating = false ∧ cmd = "togglefloating address:" ++ c.address := by
  unfold toggleAddrCmds at hmem
  rcases List.mem_filterMap.mp hmem with ⟨c, hc, heq⟩
  by_cases hf : c.floating
  · simp [hf] at heq
  · simp only [hf, Bool.not_false, if_pos] at heq
    exact ⟨c, hc, by simpa using hf, (Option.some.injEq _ _ ▸ heq).symm⟩

lemma mem_targetsOf (clients : List Client) (cn : String) (c : Client)
    (hc : c ∈ targetsOf clients cn) :
    c ∈ clients ∧ c.cls = cn ∧ c.workspaceName ≠ "special:hdrop" := by
  unfold targetsOf at hc
  have h1 := List.mem_filter.mp hc
  refine ⟨h1.1, ?_, ?_⟩
  · have := h1.2
    simp only [Bool.and_eq_true, beq_iff_eq] at this
    exact this.1
  · have := h1.2
    simp only [Bool.and_eq_true, bne_iff_ne, ne_eq] at this
    exact this.2

/-- C6: in the geometry normalizer, every per-window `togglefloating address:`
command in the output belongs to a client of the class outside the scratchpad
that reports `floating = false` (never an already-floating one), and the
class-wide `togglefloating class:` fallback appears in the output exactly when
no client of the class exists outside the scratchpad. -/
theorem hdrop_normalizer_toggle_guard (clients : List Client) (ws : Int) (cn : String)
    (h w : Option Int) (cf : Bool) :
    (∀ cmd ∈ (_configure_floating_window (staticEnv clients ws) cn h w cf St.init).cmds,
       (∃ a, cmd = "togglefloating address:" ++ a) →
       ∃ c ∈ clients, c.cls = cn ∧ c.workspaceName ≠ "special:hdrop" ∧
         c.floating = false ∧ cmd = "togglefloating address:" ++ c.address) ∧
    ((("togglefloating class:" ++ cn) ∈
        (_configure_floating_window (staticEnv clients ws) cn h w cf St.init).cmds) ↔
      targetsOf clients cn = []) := by
  rw [configure_cmds_static]
  constructor
  · intro cmd hmem haddr
    unfold configDelta at hmem
    rcases List.mem_append.mp hmem with hmem1 | hmemC
    · rcases List.mem_append.mp hmem1 with hmemA | hmemB
      · by_cases hemp : (targetsOf clients cn).isEmpty
        · simp only [hemp, if_pos] at hmemA
          rcases haddr with ⟨a, ha⟩
          rw [List.mem_singleton] at hmemA
          exact absurd (hmemA ▸ ha) (tclass_ne_taddr cn a)
        · simp only [hemp, if_neg] at hmemA
          rcases mem_toggleAddrCmds _ _ hmemA with ⟨c, hc, hf, hcmd⟩
          rcases mem_targetsOf clients cn c hc with ⟨hcl, hcls, hws⟩
          exact ⟨c, hcl, hcls, hws, hf, hcmd⟩
      · rcases hh : h with _ | hv <;> rcases hw : w with _ | wv <;>
          simp only [hh, hw] at hmemB
        · exact absurd hmemB (List.not_mem_nil _)
        · exact absurd hmemB (List.not_mem_nil _)
        · exact absurd hmemB (List.not_mem_nil _)
        · rcases haddr with ⟨a, ha⟩
          rw [List.mem_singleton] at hmemB
          exact absurd (hmemB ▸ ha) (resize_ne_taddr _ _ _ a)
    · by_cases hcf : cf
      · simp only [hcf, if_pos] at hmemC
        rcases haddr with ⟨a, ha⟩
        rw [List.mem_singleton] at hmemC
        exact absurd (hmemC ▸ ha) (center_ne_taddr cn a)
      · simp [hcf] at hmemC
  · constructor
    · intro hmem
      by_contra hne
      have hemp : (targetsOf clients cn).isEmpty = false := by
        rw [List.isEmpty_eq_false_iff_exists_mem]
        rcases List.exists_mem_of_ne_nil _ hne with ⟨c, hc⟩
        exact ⟨c, hc⟩
      unfold configDelta at hmem
      rcases List.mem_append.mp hmem with hmem1 | hmemC
      · rcases List.mem_append.mp hmem1 with hmemA | hmemB
        · simp only [hemp, Bool.false_eq_true, if_false] at hmemA
          rcases mem_toggleAddrCmds _ _ hmemA with ⟨c, _, _, hcmd⟩
          exact absurd hcmd (tclass_ne_taddr cn c.address)
        · rcases hh : h with _ | hv <;> rcases hw : w with _ | wv <;>
            simp only [hh, hw] at hmemB
          · exact absurd hmemB (List.not_mem_nil _)
          · exact absurd hmemB (List.not_mem_nil _)
          · exact absurd hmemB (List.not_mem_nil _)
          · rw [List.mem_singleton] at hmemB
            exact absurd hmemB (tclass_ne_resize cn _ _ cn)
      · by_cases hcf : cf
        · simp only [hcf, if_pos] at hmemC
          rw [List.mem_singleton] at hmemC
          exact absurd hmemC (tclass_ne_center cn cn)
        · simp [hcf] at hmemC
    · intro hnil
      unfold configDelta
      have : (targetsOf clients cn).isEmpty = true := by rw [hnil]; rfl
      simp [this]

/-- C7: the geometry normalizer's output is always a block of floating
toggles, then the resize command exactly when both height and width are
present, then the center command exactly when centering is requested. -/
theorem hdrop_normalizer_order (clients : List Client) (ws : Int) (cn : String)
    (h w : Option Int) (cf : Bool) :
    ∃ toggles,
      (_configure_floating_window (staticEnv clients ws) cn h w cf St.init).cmds =
        toggles
        ++ (match h, w with
            | some hh, some ww =>
              ["resizewindowpixel exact " ++ toString ww ++ " " ++ toString hh
                ++ ",class:" ++ cn]
            | _, _ => [])
        ++ (if cf then ["centerwindow class:" ++ cn] else []) ∧
      ∀ cmd ∈ toggles, (∃ a, cmd = "togglefloating address:" ++ a) ∨
        cmd = "togglefloating class:" ++ cn := by
  refine ⟨if (targetsOf clients cn).isEmpty then ["togglefloating class:" ++ cn]
          else toggleAddrCmds (targetsOf clients cn), ?_, ?_⟩
  · rw [configure_cmds_static]
    rfl
  · intro cmd hmem
    by_cases hemp : (targetsOf clients cn).isEmpty
    · simp only [hemp, if_pos] at hmem
      rw [List.mem_singleton] at hmem
      exact Or.inr hmem
    · simp only [hemp, if_neg] at hmem
      rcases mem_toggleAddrCmds _ _ hmem with ⟨c, _, _, hcmd⟩
      exact Or.inl ⟨c.address, hcmd⟩

/-- C8: the `hide` entry point returns no error and, when a window of the
class exists, emits exactly one silent move to the scratchpad regardless of
the window's current workspace; when no such window exists it emits nothing. -/
theorem hdrop_hide_behavior (clients : List Client) (ws : Int) (args : String) (s : St)
    (hne : (pyStrip args == "") = false) :
    (run_hide (staticEnv clients ws) args s).1 = none ∧
    (run_hide (staticEnv clients ws) args s).2.cmds =
      s.cmds ++ (if windowExists clients (pyStrip args) then
        ["movetoworkspacesilent special:hdrop,class:" ++ pyStrip args] else []) := by
  unfold run_hide _is_window_exists get_clients _move_window_to_hdrop staticEnv
  by_cases hex : windowExists clients (pyStrip args) <;> simp [hne, hex, emit]

/-- Witness for `hdrop_hide_behavior`: hiding `foo` already sitting in the
scratchpad still emits the (idempotent) silent move. -/
theorem hdrop_hide_behavior_witness :
    (run_hide (staticEnv [⟨"0xabc", "foo", "t", "special:hdrop", false⟩] 1) "foo"
      St.init).1 = none ∧
    (run_hide (staticEnv [⟨"0xabc", "foo", "t", "special:hdrop", false⟩] 1) "foo"
      St.init).2.cmds = ["movetoworkspacesilent special:hdrop,class:foo"] := by
  have h := hdrop_hide_behavior [⟨"0xabc", "foo", "t", "special:hdrop", false⟩] 1
    "foo" St.init (by decide)
  exact ⟨h.1, h.2.trans (by decide)⟩

/-- C9: entry points with an empty or missing name/class token return a
descriptive error and leave the state untouched, and the primary entry points
return a descriptive error and leave the state untouched when the application
name is not in the configuration mapping. -/
theorem hdrop_error_paths (env : Env) (apps : List (String × AppConf))
    (args app_name cn : String) (rest : List String) (s : St) :
    (pySplitWs args = [] →
      run_hdrop env apps args s =
        (some "Error: app name required (defined under hdrop.apps)", s)) ∧
    (apps.lookup app_name = none →
      run_app env apps app_name s =
        (some ("Error: app '" ++ app_name ++ "' not configured"), s)) ∧
    (pySplitWs args = [] →
      run_toggle env apps args s = (some "Error: CLASS name required", s)) ∧
    (pySplitWs args = [] →
      run_show env apps args s = (some "Error: CLASS name required", s)) ∧
    ((pyStrip args == "") = true →
      run_focus env args s = (some "Error: CLASS name required", s)) ∧
    ((pyStrip args == "") = true →
      run_hide env args s = (some "Error: CLASS name required", s)) ∧
    (pySplitWs args = cn :: rest → apps.lookup cn = none →
      run_hdrop env apps args s =
        (some ("Error: app '" ++ cn ++ "' not configured"), s)) := by
  refine ⟨?_, ?_, ?_, ?_, ?_, ?_, ?_⟩
  · intro hp
    unfold run_hdrop
    rw [hp]
    rfl
  · intro hl
    unfold run_app _get_app_config
    rw [hl]
    rfl
  · intro hp
    unfold run_toggle
    rw [hp]
  · intro hp
    unfold run_show
    rw [hp]
  · intro he
    unfold run_focus
    simp [he]
  · intro he
    unfold run_hide
    simp [he]
  · intro hp hl
    unfold run_hdrop
    rw [hp]
    have hcn := pySplitWs_head_ne_empty args cn rest hp
    simp only [List.headD_cons, hcn, Bool.false_eq_true, if_false]
    unfold run_app _get_app_config
    rw [hl]
    rfl

/-- Witness for `hdrop_error_paths`: empty arguments and the unconfigured app
`bar` all yield error results with no commands issued. -/
theorem hdrop_error_paths_witness :
    (run_hdrop (staticEnv [] 1) [] "" St.init =
      (some "Error: app name required (defined under hdrop.apps)", St.init)) ∧
    (run_app (staticEnv [] 1) [] "bar" St.init =
      (some ("Error: app '" ++ "bar" ++ "' not configured"), St.init)) ∧
    (run_toggle (staticEnv [] 1) [] " " St.init =
      (some "Error: CLASS name required", St.init)) ∧
    (run_show (staticEnv [] 1) [] " " St.init =
      (some "Error: CLASS name required", St.init)) ∧
    (run_focus (staticEnv [] 1) "  " St.init =
      (some "Error: CLASS name required", St.init)) ∧
    (run_hide (staticEnv [] 1) "  " St.init =
      (some "Error: CLASS name required", St.init)) ∧
    (run_hdrop (staticEnv [] 1) [] "bar x" St.init =
      (some ("Error: app '" ++ "bar" ++ "' not configured"), St.init)) := by
  have h := hdrop_error_paths (staticEnv [] 1) [] "" "bar" "bar" [] St.init
  have h2 := hdrop_error_paths (staticEnv [] 1) [] " " "bar" "bar" [] St.init
  have h3 := hdrop_error_paths (staticEnv [] 1) [] "  " "bar" "bar" [] St.init
  have h4 := hdrop_error_paths (staticEnv [] 1) [] "bar x" "bar" "bar" ["x"] St.init
  exact ⟨h.1 (by decide), h.2.1 rfl, h2.2.2.1 (by decide), h2.2.2.2.1 (by decide),
    h3.2.2.2.2.1 (by decide), h3.2.2.2.2.2.1 (by decide),
    h4.2.2.2.2.2.2 (by decide) rfl⟩

/-- C10: for an active-window event whose (unique) matching client matches
both an active pattern and an inactive pattern, both commands are issued in
that event, the enable command strictly before the disable command; when the
client matches neither pattern set, no command is issued. -/
theorem fcitx_switch_order (reS : String → String → Except Unit Bool)
    (cfg : SwitcherConfig) (env : Env) (addr : String) (s : St) (c0 : Client)
    (hone : (env.clientsAt s.queries).filter
      (fun c => c.address == "0x" ++ addr) = [c0]) :
    ((matches_any reS c0.cls cfg.active_classes ||
        matches_any reS c0.title cfg.active_titles) = true →
     (matches_any reS c0.cls cfg.inactive_classes ||
        matches_any reS c0.title cfg.inactive_titles) = true →
     (event_activewindowv2 reS cfg env addr s).cmds =
       s.cmds ++ ["execr fcitx5-remote -o", "execr fcitx5-remote -c"]) ∧
    ((matches_any reS c0.cls cfg.active_classes ||
        matches_any reS c0.title cfg.active_titles) = false →
     (matches_any reS c0.cls cfg.inactive_classes ||
        matches_any reS c0.title cfg.inactive_titles) = false →
     (event_activewindowv2 reS cfg env addr s).cmds = s.cmds) := by
  have hmem : (c0.address == "0x" ++ addr) = true := by
    have hin : c0 ∈ (env.clientsAt s.queries).filter
        (fun c => c.address == "0x" ++ addr) := by
      rw [hone]
      exact List.mem_cons_self _ _
    exact (List.mem_filter.mp hin).2
  unfold event_activewindowv2 get_clients
  rw [foldl_fcitxStep_filter]
  simp only []
  rw [hone]
  simp only [List.foldl_cons, List.foldl_nil]
  constructor
  · intro he hd
    simp [fcitxStep, hmem, he, hd, emit]
  · intro he hd
    simp [fcitxStep, hmem, he, hd]

/-- Witness for `fcitx_switch_order`: a client matching both an active class
pattern and an inactive title pattern under an equality matcher gets the
enable command and then the disable command. -/
theorem fcitx_switch_order_witness :
    (event_activewindowv2 (fun p v => Except.ok (p == v))
      ⟨["term"], [], [], ["scratch"]⟩
      (staticEnv [⟨"0xabc", "term", "scratch", "1", false⟩] 1) "abc" St.init).cmds =
      St.init.cmds ++ ["execr fcitx5-remote -o", "execr fcitx5-remote -c"] :=
  (fcitx_switch_order (fun p v => Except.ok (p == v))
    ⟨["term"], [], [], ["scratch"]⟩
    (staticEnv [⟨"0xabc", "term", "scratch", "1", false⟩] 1) "abc" St.init
    ⟨"0xabc", "term", "scratch", "1", false⟩ (by decide)).1 (by decide) (by decide)

/-- Witness for `hdrop_normalizer_toggle_guard`: with the only `foo` client
still inside the scratchpad, the class-wide fallback toggle is emitted. -/
theorem hdrop_normalizer_toggle_guard_witness :
    ("togglefloating class:" ++ "foo") ∈
      (_configure_floating_window
        (staticEnv [⟨"0xa", "foo", "t", "special:hdrop", false⟩] 1)
        "foo" none none false St.init).cmds :=
  (hdrop_normalizer_toggle_guard [⟨"0xa", "foo", "t", "special:hdrop", false⟩] 1 "foo"
    none none false).2.mpr (by decide)

/-- Witness for `hdrop_normalizer_order`: concrete instantiation with both
dimensions present and centering requested. -/
theorem hdrop_normalizer_order_witness :
    ∃ toggles,
      (_configure_floating_window (staticEnv [⟨"0xa", "foo", "t", "1", false⟩] 1) "foo"
        (some 400) (some 600) true St.init).cmds =
        toggles
        ++ (match (some 400 : Option Int), (some 600 : Option Int) with
            | some hh, some ww =>
              ["resizewindowpixel exact " ++ toString ww ++ " " ++ toString hh
                ++ ",class:" ++ "foo"]
            | _, _ => [])
        ++ (if true then ["centerwindow class:" ++ "foo"] else []) ∧
      ∀ cmd ∈ toggles, (∃ a, cmd = "togglefloating address:" ++ a) ∨
        cmd = "togglefloating class:" ++ "foo" :=
  hdrop_normalizer_order [⟨"0xa", "foo", "t", "1", false⟩] 1 "foo"
    (some 400) (some 600) true
